import Mathlib

/-
Shallow embedding of the cloudflare-dyndns update engine.

Source files embedded (paths relative to the repository root):
  cloudflare_dyndns/types.py        -- record types, exit codes
  cloudflare_dyndns/cache.py        -- ZoneRecord, IPCache, Cache
  cloudflare_dyndns/cloudflare.py   -- CloudFlareWrapper (zone/record lookup, CRUD)
  cloudflare_dyndns/ip_services.py  -- address probe loop
  cloudflare_dyndns/updater.py      -- CFUpdater (new-style engine, old/new cache split)
  cloudflare_dyndns/cli.py          -- old-style driver (get_domains, update_domains,
                                       handle_update, main)

The network and the provider are modelled as a deterministic environment
(ProviderState): each oracle field gives the outcome the corresponding HTTP
request would have during the single pass being modelled.  Python exceptions
are modelled by Except over an exception-class enum; printer calls are pure
output and are dropped.
-/

namespace CFD

/-! ### types.py -/

/-- DNS record types, types.py lines 5-7. -/
inductive RecordType
| A
| AAAA
deriving DecidableEq

/-- An IPv4 or IPv6 address.  The payload is an opaque identity: the engine
only ever compares addresses for equality and asks for their family. -/
inductive IPAddress
| v4 (n : Nat)
| v6 (n : Nat)
deriving DecidableEq

/-- ip.version in types.py line 11. -/
def IPAddress.version : IPAddress → Nat
| .v4 _ => 4
| .v6 _ => 6

/-- types.py line 10-11: return "A" if ip.version == 4 else "AAAA". -/
def get_record_type (ip : IPAddress) : RecordType :=
  if ip.version = 4 then .A else .AAAA

/-- types.py lines 14-18: class ExitCode. -/
def ExitCode.OK : Nat := 0

def ExitCode.UNKNOWN_ERROR : Nat := 1

def ExitCode.IP_SERVICE_ERROR : Nat := 2

def ExitCode.CLOUDFLARE_ERROR : Nat := 3

/-- Python exception classes raised by the embedded code.  Callers in the
source branch on the class only (except clauses), never on the message, so
messages are not modelled. -/
inductive PyExc
| cloudFlareError      -- cloudflare.CloudFlareError
| cloudFlareAPIError   -- CloudFlare.exceptions.CloudFlareAPIError (old SDK)
| ipServiceError       -- ip_services.IPServiceError
| valueError           -- builtin ValueError (raised by ipaddress.ip_address)
| addressValueError    -- ipaddress.AddressValueError
deriving DecidableEq

deriving instance DecidableEq for Except

/-! ### cache.py -/

/-- cache.py lines 20-23. -/
structure ZoneRecord where
  zone_id : String
  record_id : String
  proxied : Bool
deriving DecidableEq

/-- Python dict lookup d.get(k) on a domain-keyed mapping. -/
def dictGet : List (String × ZoneRecord) → String → Option ZoneRecord
| [], _ => none
| p :: ps, k => if p.1 = k then some p.2 else dictGet ps k

/-- Python dict assignment d[k] = v: replace the existing entry in place,
or append a new one (insertion order preserved). -/
def dictSet : List (String × ZoneRecord) → String → ZoneRecord → List (String × ZoneRecord)
| [], k, v => [(k, v)]
| p :: ps, k, v => if p.1 = k then (k, v) :: ps else p :: dictSet ps k v

/-- cache.py lines 26-28.  updated_domains is an insertion-ordered mapping
from domain name to ZoneRecord. -/
structure IPCache where
  address : Option IPAddress
  updated_domains : List (String × ZoneRecord)
deriving DecidableEq

/-- The default IPCache() value: no address, no domains. -/
def IPCache.empty : IPCache := ⟨none, []⟩

/-- cache.py lines 30-32: clear() sets address to None and empties the dict. -/
def IPCache.clear (_c : IPCache) : IPCache := IPCache.empty

/-- cache.py lines 35-37. -/
structure Cache where
  ipv4 : IPCache
  ipv6 : IPCache
deriving DecidableEq

/-- The default Cache() value. -/
def Cache.empty : Cache := ⟨IPCache.empty, IPCache.empty⟩

/-- cache.py lines 39-40: is_empty compares against a fresh default Cache. -/
def Cache.is_empty (c : Cache) : Bool := c == Cache.empty

/-! ### cloudflare.py -/

/-- One DNS record as returned by the provider list-records call
(cloudflare.py lines 79-81 reads record["type"], record["name"], record["id"]). -/
structure DNSRecord where
  rtype : RecordType
  name : String
  id : String
deriving DecidableEq

/-- Python str.endswith(suffix): plain character-suffix test, used by
get_zone_id (cloudflare.py line 61). -/
def str_endswith (s zone_name : String) : Bool :=
  zone_name.data.isSuffixOf s.data

/-- Deterministic environment for one pass: the outcome each provider HTTP
request would have.  A none / false outcome stands for the request raising
CloudFlareError (cloudflare.py _request, lines 28-43). -/
structure ProviderState where
  /-- GET /zones: none = request fails; some zs = list of (name, id) pairs
  (cloudflare.py lines 53-56, get_all_zone_ids). -/
  zones : Option (List (String × String))
  /-- GET /zones/{id}/dns_records?name=domain for a domain: none = the
  request fails (httpx error or API error); some rs = returned records
  (cloudflare.py lines 67-75, _get_records). -/
  records : String → Option (List DNSRecord)
  /-- PUT /zones/{zone_id}/dns_records/{record_id} with the given domain,
  address, zone id and record id: does it succeed?
  (cloudflare.py lines 107-131, update_record). -/
  update_ok : String → IPAddress → String → String → Bool
  /-- POST /zones/{zone_id}/dns_records for the given domain and address:
  none = request fails; some rid = created record id
  (cloudflare.py lines 87-105, create_record). -/
  create_res : String → IPAddress → Option String
  /-- DELETE /zones/{zone_id}/dns_records/{record_id} for the given domain:
  does it succeed? (cloudflare.py line 141). -/
  delete_ok : String → Bool

/-- cloudflare.py lines 58-65: return the id of the first zone whose name is
a suffix of the domain (domain.endswith(zone_name)); raise CloudFlareError
when the zone list request fails or no zone name matches. -/
def get_zone_id (ps : ProviderState) (domain : String) : Except PyExc String :=
  match ps.zones with
  | none => .error .cloudFlareError
  | some zs =>
    match zs.find? (fun z => str_endswith domain z.1) with
    | some z => .ok z.2
    | none => .error .cloudFlareError

/-- cloudflare.py lines 67-75: _get_records resolves the zone first, then
lists the records; any failure raises CloudFlareError. -/
def get_records (ps : ProviderState) (domain : String) : Except PyExc (List DNSRecord) :=
  match get_zone_id ps domain with
  | .error e => .error e
  | .ok _ =>
    match ps.records domain with
    | none => .error .cloudFlareError
    | some rs => .ok rs

/-- cloudflare.py lines 77-85: return the id of the first record matching
the requested type and name; raise CloudFlareError both when the listing
fails and when no record matches (same exception class in both cases). -/
def get_record_id (ps : ProviderState) (domain : String) (record_type : RecordType) :
    Except PyExc String :=
  match get_records ps domain with
  | .error e => .error e
  | .ok rs =>
    match rs.find? (fun r => r.rtype == record_type && r.name == domain) with
    | some r => .ok r.id
    | none => .error .cloudFlareError

/-- cloudflare.py lines 87-105: create_record resolves the zone, then POSTs
the new record; failures raise CloudFlareError. -/
def create_record (ps : ProviderState) (domain : String) (ip : IPAddress) :
    Except PyExc String :=
  match get_zone_id ps domain with
  | .error e => .error e
  | .ok _ =>
    match ps.create_res domain ip with
    | none => .error .cloudFlareError
    | some rid => .ok rid

/-- cloudflare.py lines 107-131: update_record with explicit zone and record
ids (the engine always passes both, so the or-lookup branches are skipped);
a failing PUT raises CloudFlareError. -/
def update_record (ps : ProviderState) (domain : String) (ip : IPAddress)
    (zone_id record_id : String) : Except PyExc Unit :=
  if ps.update_ok domain ip zone_id record_id then .ok () else .error .cloudFlareError

/-- cloudflare.py lines 133-141: delete_record resolves the zone (failure
escapes), treats a record-lookup failure as the record being already absent
(return, success), then DELETEs (failure escapes). -/
def delete_record (ps : ProviderState) (domain : String) (record_type : RecordType) :
    Except PyExc Unit :=
  match get_zone_id ps domain with
  | .error e => .error e
  | .ok _ =>
    match get_record_id ps domain record_type with
    | .error _ => .ok ()
    | .ok _ => if ps.delete_ok domain then .ok () else .error .cloudFlareError

/-! ### ip_services.py -/

/-- The observable outcome of probing one IP service: the HTTP GET and the
parse of its body collapsed into one value.
  unreachable  -- client.get raised httpx.RequestError (line 87)
  errorStatus  -- not res.is_success (line 91)
  body p       -- response received; p is what ipaddress.ip_address makes of
                  the parsed body: some ip on success, none when it raises
                  (CPython: ip_address raises a plain ValueError on any
                  unparseable input, never AddressValueError). -/
inductive ServiceOutcome
| unreachable
| errorStatus
| body (parse : Option IPAddress)
deriving DecidableEq

/-- ip_services.py lines 78-108, _get_ip: try each service in order;
unreachable services and error statuses are skipped; the first response whose
body parses is returned with no family check; a body that does not parse
raises ValueError, and the handler at line 98 catches only
ipaddress.AddressValueError, so the ValueError escapes the loop; when the
list is exhausted the for-else raises IPServiceError. -/
def get_ip : List ServiceOutcome → Except PyExc IPAddress
| [] => .error .ipServiceError
| s :: rest =>
  match s with
  | .unreachable => get_ip rest
  | .errorStatus => get_ip rest
  | .body parse =>
    match parse with
    | some ip => .ok ip
    | none => .error .valueError

/-- ip_services.py lines 111-122: get_ipv4 runs _get_ip and then raises
IPServiceError when the returned address is not IPv4 (whole-probe failure,
no further services are tried). -/
def get_ipv4 (services : List ServiceOutcome) : Except PyExc IPAddress :=
  match get_ip services with
  | .error e => .error e
  | .ok ip =>
    match ip with
    | .v4 n => .ok (.v4 n)
    | .v6 _ => .error .ipServiceError

/-- ip_services.py lines 125-136: get_ipv6, symmetric to get_ipv4. -/
def get_ipv6 (services : List ServiceOutcome) : Except PyExc IPAddress :=
  match get_ip services with
  | .error e => .error e
  | .ok ip =>
    match ip with
    | .v6 n => .ok (.v6 n)
    | .v4 _ => .error .ipServiceError

/-! ### Shared stale-domain filtering

cli.py lines 29-48 and updater.py lines 98-117 compute the same value:
  updated_domains = set of cached domains whose cached proxied flag matches
  the requested one, then missing_domains = set(domains) - updated_domains.
Set subtraction is modelled as filtering the requested list by membership. -/

def missing_domains (domains : List String) (proxied : Bool)
    (cached : List (String × ZoneRecord)) : List String :=
  domains.filter (fun d => !(cached.any (fun p => p.1 == d && p.2.proxied == proxied)))

/-! ### Shared delete-missing loop

cli.py lines 278-279 and updater.py lines 59-60:
  for domain in domains: cf.delete_record(domain, record_type)
with no try/except around the call, so a CloudFlareError raised by
delete_record aborts the loop and escapes the surrounding function.  The
result records one (domain, record_type) entry per delete_record invocation
actually performed and completed. -/

def delete_missing_loop (ps : ProviderState) (record_type : RecordType) :
    List String → Except PyExc (List (String × RecordType))
| [] => .ok []
| d :: ds =>
  match delete_record ps d record_type with
  | .error e => .error e
  | .ok _ =>
    match delete_missing_loop ps record_type ds with
    | .error e => .error e
    | .ok calls => .ok ((d, record_type) :: calls)

/-! ### updater.py — CFUpdater (new-style engine: read-only old cache,
separate new cache snapshot) -/

namespace CFUpdater

/-- updater.py lines 92-117, _get_domains.  NOTE the control flow: the force
branch only prints a warning and then FALLS THROUGH to the cache-based
filtering below (there is no early return for force); the full domain list
is returned early only in the address-changed branch. -/
def get_domains (domains : List String) (force proxied : Bool)
    (current_ip : IPAddress) (old_cache : IPCache) : List String :=
  if force then
    missing_domains domains proxied old_cache.updated_domains
  else if some current_ip ≠ old_cache.address then
    domains
  else
    missing_domains domains proxied old_cache.updated_domains

/-- updater.py lines 144-171: the reconciliation path taken when the cache
held no record for the domain, or the fast path failed.  Per-domain failures
(except CloudFlareError: success = False; continue) are returned as none. -/
def update_one_uncached (ps : ProviderState) (current_ip : IPAddress)
    (proxied : Bool) (domain : String) : Option ZoneRecord :=
  match get_zone_id ps domain with
  | .error _ => none
  | .ok zone_id =>
    match get_record_id ps domain (get_record_type current_ip) with
    | .error _ =>
      match create_record ps domain current_ip with
      | .error _ => none
      | .ok record_id => some ⟨zone_id, record_id, proxied⟩
    | .ok record_id =>
      match update_record ps domain current_ip zone_id record_id with
      | .error _ => none
      | .ok _ => some ⟨zone_id, record_id, proxied⟩

/-- updater.py lines 128-176, the body of the per-domain loop: fast path
through the cached (zone_id, record_id) pair when the old cache has an
entry; on CloudFlareError from the fast path, fall through to the uncached
path; the returned ZoneRecord is what gets stored into the new cache. -/
def update_one (ps : ProviderState) (old_cache : IPCache) (current_ip : IPAddress)
    (proxied : Bool) (domain : String) : Option ZoneRecord :=
  match dictGet old_cache.updated_domains domain with
  | some cache_record =>
    match update_record ps domain current_ip cache_record.zone_id cache_record.record_id with
    | .ok _ => some ⟨cache_record.zone_id, cache_record.record_id, proxied⟩
    | .error _ => update_one_uncached ps current_ip proxied domain
  | none => update_one_uncached ps current_ip proxied domain

/-- The loop state of _update_domains: the running success flag and the new
cache being populated. -/
def update_domains_go (ps : ProviderState) (old_cache : IPCache)
    (current_ip : IPAddress) (proxied : Bool) :
    List String → Bool × IPCache → Bool × IPCache
| [], acc => acc
| domain :: ds, acc =>
  match update_one ps old_cache current_ip proxied domain with
  | some zr =>
    update_domains_go ps old_cache current_ip proxied ds
      (acc.1, { acc.2 with updated_domains := dictSet acc.2.updated_domains domain zr })
  | none =>
    update_domains_go ps old_cache current_ip proxied ds (false, acc.2)

/-- updater.py lines 119-178, _update_domains: iterate over the stale
domains with success = True initially; each per-domain failure sets
success = False and continues; each success stores its ZoneRecord into
new_cache.updated_domains. -/
def update_domains (ps : ProviderState) (domains : List String)
    (current_ip : IPAddress) (old_cache new_cache : IPCache) (proxied : Bool) :
    Bool × IPCache :=
  update_domains_go ps old_cache current_ip proxied domains (true, new_cache)

/-- updater.py lines 65-90: the part of _handle_update after the address
probe succeeded.  new_cache.address is set only when the address changed;
then the stale set is computed; an empty stale set returns 0 immediately;
otherwise _update_domains runs (in this pure model no exception escapes it,
so the except branches returning 2 and 1 are not reachable) and the pass
returns 0 on overall success, 2 otherwise. -/
def handle_update_after_probe (ps : ProviderState) (domains : List String)
    (force proxied : Bool) (current_ip : IPAddress) (old_cache new_cache : IPCache) :
    Nat × IPCache :=
  let new1 : IPCache :=
    if some current_ip ≠ old_cache.address then
      { new_cache with address := some current_ip }
    else new_cache
  let stale := get_domains domains force proxied current_ip old_cache
  if stale = [] then (0, new1)
  else
    let res := update_domains ps stale current_ip old_cache new1 proxied
    (if res.1 then 0 else 2, res.2)

/-- updater.py lines 44-90, _handle_update.  The probe outcome is passed in
(.error () models get_ip_func raising IPServiceError).  On probe failure:
return 3 when delete_missing is false; otherwise run the delete loop — whose
CloudFlareErrors escape this function — and return 0 without touching
new_cache (updater.py has no clear() call on this path). -/
def handle_update (ps : ProviderState) (probe : Except Unit IPAddress)
    (delete_missing : Bool) (record_type : RecordType) (domains : List String)
    (force proxied : Bool) (old_cache new_cache : IPCache) (_debug : Bool) :
    Except PyExc (Nat × IPCache) :=
  match probe with
  | .error _ =>
    if !delete_missing then .ok (3, new_cache)
    else
      match delete_missing_loop ps record_type domains with
      | .error e => .error e
      | .ok _ => .ok (0, new_cache)
  | .ok current_ip =>
    .ok (handle_update_after_probe ps domains force proxied current_ip old_cache new_cache)

end CFUpdater

/-! ### cli.py — old-style driver (single in-place cache)

cli.py imports the old SDK as CloudFlare and catches
CloudFlare.exceptions.CloudFlareAPIError around record writes, while the
wrapper in cloudflare.py raises its own CloudFlareError class; those except
clauses therefore never fire and the exception propagates to handle_update
(caught there at line 291, mapped to exit code 2).  In-place mutation of the
shared ip_cache is modelled by threading the cache through each step, and an
exception escaping update_domains carries the cache state reached so far. -/

namespace Cli

/-- cli.py lines 18-51, get_domains: returns the domains to update and the
(possibly address-mutated) cache.  force: full list, set address.  Address
equal to cache: filter by the cache (no address write).  Address changed:
full list, set address. -/
def get_domains (domains : List String) (force : Bool) (current_ip : IPAddress)
    (ip_cache : IPCache) (proxied : Bool) : List String × IPCache :=
  if force then
    (domains, { ip_cache with address := some current_ip })
  else if ip_cache.address = some current_ip then
    (missing_domains domains proxied ip_cache.updated_domains, ip_cache)
  else
    (domains, { ip_cache with address := some current_ip })

/-- cli.py lines 63-102, the body of the per-domain loop of update_domains.
Fast path: the except clause at line 73 names CloudFlareAPIError, so the
CloudFlareError actually raised by update_record escapes (the del of the
cache entry at line 75 is never reached).  Uncached path: get_zone_id and
get_record_id failures are caught (lines 81, 88); create_record and
update_record failures hit except clauses naming CloudFlareAPIError (lines
91, 97) and escape. -/
def update_step (ps : ProviderState) (current_ip : IPAddress) (proxied : Bool)
    (acc : Bool × IPCache) (domain : String) : Except (PyExc × IPCache) (Bool × IPCache) :=
  let cache := acc.2
  let store : ZoneRecord → IPCache := fun zr =>
    { cache with updated_domains := dictSet cache.updated_domains domain zr }
  match dictGet cache.updated_domains domain with
  | some cache_record =>
    match update_record ps domain current_ip cache_record.zone_id cache_record.record_id with
    | .ok _ => .ok (acc.1, store ⟨cache_record.zone_id, cache_record.record_id, proxied⟩)
    | .error e => .error (e, cache)
  | none =>
    match get_zone_id ps domain with
    | .error _ => .ok (false, cache)
    | .ok zone_id =>
      match get_record_id ps domain (get_record_type current_ip) with
      | .error _ =>
        match create_record ps domain current_ip with
        | .error e => .error (e, cache)
        | .ok record_id => .ok (acc.1, store ⟨zone_id, record_id, proxied⟩)
      | .ok record_id =>
        match update_record ps domain current_ip zone_id record_id with
        | .error e => .error (e, cache)
        | .ok _ => .ok (acc.1, store ⟨zone_id, record_id, proxied⟩)

/-- The loop of cli.py update_domains over the domain list. -/
def update_domains_go (ps : ProviderState) (current_ip : IPAddress) (proxied : Bool) :
    List String → Bool × IPCache → Except (PyExc × IPCache) (Bool × IPCache)
| [], acc => .ok acc
| domain :: ds, acc =>
  match update_step ps current_ip proxied acc domain with
  | .error e => .error e
  | .ok acc2 => update_domains_go ps current_ip proxied ds acc2

/-- cli.py lines 54-104, update_domains: success starts True; per-domain
zone-lookup failures set it to False and continue; record write failures
raise CloudFlareError out of the function (stale except clauses). -/
def update_domains (ps : ProviderState) (domains : List String) (ip_cache : IPCache)
    (current_ip : IPAddress) (proxied : Bool) : Except (PyExc × IPCache) (Bool × IPCache) :=
  update_domains_go ps current_ip proxied domains (true, ip_cache)

/-- cli.py lines 258-306, handle_update.  The probe outcome is passed in.
Probe failure: return 3 when delete_missing is false; otherwise run the
delete loop (its CloudFlareErrors escape), clear the cache and return 0.
Probe success: compute the stale set; empty means 0; otherwise run
update_domains; a CloudFlareError escaping it is caught at line 291 and
mapped to 2 (re-raised when debug); success False maps to 2, else 0. -/
def handle_update (ps : ProviderState) (probe : Except Unit IPAddress)
    (delete_missing : Bool) (record_type : RecordType) (domains : List String)
    (force : Bool) (ip_cache : IPCache) (debug proxied : Bool) :
    Except PyExc (Nat × IPCache) :=
  match probe with
  | .error _ =>
    if !delete_missing then .ok (3, ip_cache)
    else
      match delete_missing_loop ps record_type domains with
      | .error e => .error e
      | .ok _ => .ok (0, ip_cache.clear)
  | .ok current_ip =>
    let gd := get_domains domains force current_ip ip_cache proxied
    if gd.1 = [] then .ok (0, gd.2)
    else
      match update_domains ps gd.1 gd.2 current_ip proxied with
      | .error (e, cache_now) => if debug then .error e else .ok (2, cache_now)
      | .ok (success, cache2) => if !success then .ok (2, cache2) else .ok (0, cache2)

/-- The observable outcome of cli.py main lines 226-255: whether
cache_manager.save ran, the cache value it saved, and the final exit code
(0 when every pass returned 0). -/
structure MainResult where
  saved : Bool
  cache : Cache
  final_exit : Nat
deriving DecidableEq

/-- One iteration of the loop at cli.py lines 230-242: when the family is
enabled, run handle_update on its IPCache and record its exit code; a
skipped family contributes no exit code and leaves its IPCache untouched. -/
def run_pass (ps : ProviderState) (probe : Except Unit IPAddress)
    (delete_missing : Bool) (record_type : RecordType) (domains : List String)
    (force : Bool) (ipc : IPCache) (debug proxied enabled : Bool) :
    Except PyExc (Option Nat × IPCache) :=
  if enabled then
    match handle_update ps probe delete_missing record_type domains force ipc debug proxied with
    | .error e => .error e
    | .ok r => .ok (some r.1, r.2)
  else .ok (none, ipc)

/-- cli.py lines 226-255: run the enabled per-family passes in order, then
call cache_manager.save(cache) UNCONDITIONALLY (line 245, no emptiness or
difference check), then exit with min of the non-zero pass codes (0 when
none).  An exception escaping a pass aborts main before the save. -/
def main_run (ps : ProviderState) (probe4 probe6 : Except Unit IPAddress)
    (ipv4 ipv6 delete_missing : Bool) (domains : List String)
    (force debug proxied : Bool) (cache : Cache) : Except PyExc MainResult :=
  match run_pass ps probe4 delete_missing .A domains force cache.ipv4 debug proxied ipv4 with
  | .error e => .error e
  | .ok (c4, ipc4) =>
    match run_pass ps probe6 delete_missing .AAAA domains force cache.ipv6 debug proxied ipv6 with
    | .error e => .error e
    | .ok (c6, ipc6) =>
      let codes := (c4.toList ++ c6.toList).filter (fun n => n ≠ 0)
      let fin := match codes with
        | [] => 0
        | n :: ns => ns.foldl Nat.min n
      .ok ⟨true, ⟨ipc4, ipc6⟩, fin⟩

end Cli

/-! ### Spec-side predicates (for refinement comparisons only)

These two definitions follow the wording of the specification, not the
source; each claim theorem compares them against the source-derived
definitions above. -/

/-- Spec 4.3: the driver "persists the new cache only if it is non-empty
(at least one family has an address or updated domains) and differs from
the old cache snapshot". -/
def spec_save_gate (old_cache new_cache : Cache) : Bool :=
  !(new_cache.is_empty) && !(new_cache == old_cache)

/-- Spec 3 (IPCache invariant): "a domain present in updated_domains implies
a successful write was made for that domain at the address currently stored
in address".  A successful write for a domain at address a, in this model,
is a successful run of the per-domain reconciliation at a producing exactly
the stored ZoneRecord. -/
def spec_updated_domains_invariant (ps : ProviderState) (old_cache : IPCache)
    (proxied : Bool) (st : IPCache) : Prop :=
  ∀ d zr, dictGet st.updated_domains d = some zr →
    ∃ a, st.address = some a ∧ CFUpdater.update_one ps old_cache a proxied d = some zr

/-! ### Concrete environments and caches used by witnesses and counterexamples -/

/-- A provider whose zone list request succeeds but returns no zones; every
other request fails.  delete_record and get_zone_id fail on it for every
domain. -/
def psNoZones : ProviderState :=
  ⟨some [], fun _ => none, fun _ _ _ _ => false, fun _ _ => none, fun _ => false⟩

/-- A provider with one zone (example.com) whose record listings all come
back empty; deletes are then swallowed as record-not-found. -/
def psNoRecords : ProviderState :=
  ⟨some [("example.com", "Z1")], fun _ => some [], fun _ _ _ _ => false,
    fun _ _ => none, fun _ => false⟩

/-- A provider with one zone (example.com) whose record listing request
fails (communication failure). -/
def psRecordsFail : ProviderState :=
  ⟨some [("example.com", "Z1")], fun _ => none, fun _ _ _ _ => false,
    fun _ _ => none, fun _ => false⟩

/-- A provider with zones for a.com, b.com and c.com, empty record listings,
and record creation failing exactly for b.com. -/
def psFailsOnB : ProviderState :=
  ⟨some [("a.com", "za"), ("b.com", "zb"), ("c.com", "zc")], fun _ => some [],
    fun _ _ _ _ => false,
    fun d _ => if d = "b.com" then none else some "rNew", fun _ => false⟩

/-- A provider with one zone (a.com), empty record listings and record
creation succeeding; updates all fail. -/
def psCreates : ProviderState :=
  ⟨some [("a.com", "z1")], fun _ => some [], fun _ _ _ _ => false,
    fun _ _ => some "r1", fun _ => false⟩

/-- A provider holding an A record r1 for a.com in zone z1; updates succeed
exactly when addressed to zone id z1 (so stale cached ids are rejected). -/
def psSelfHeal : ProviderState :=
  ⟨some [("a.com", "z1")], fun _ => some [⟨.A, "a.com", "r1"⟩],
    fun _ _ zid _ => zid == "z1", fun _ _ => none, fun _ => false⟩

/-- An IPCache holding address 1 (IPv4) and one cached domain a.com. -/
def cacheA : IPCache := ⟨some (.v4 1), [("a.com", ⟨"z1", "r1", false⟩)]⟩

/-- An IPCache holding an IPv6 address and one cached domain x.example.com
with a record id (the spec delete-missing scenario). -/
def cacheX : IPCache := ⟨some (.v6 1), [("x.example.com", ⟨"z1", "r1", false⟩)]⟩

/-- An IPCache holding address 2 (IPv4) and a stale cached id pair for
a.com that psSelfHeal rejects. -/
def cacheStale : IPCache := ⟨some (.v4 2), [("a.com", ⟨"zOld", "rOld", false⟩)]⟩

/-- An IPCache with address 1 (IPv4) and no cached domains. -/
def cacheAddrOnly : IPCache := ⟨some (.v4 1), []⟩

/-- A two-family Cache whose IPv4 side is cacheA. -/
def cacheMain : Cache := ⟨cacheA, IPCache.empty⟩

/-! ### Helper lemmas -/

theorem dictGet_dictSet : ∀ (m : List (String × ZoneRecord)) (k : String) (v : ZoneRecord)
    (x : String), dictGet (dictSet m k v) x = if x = k then some v else dictGet m x
| [], k, v, x => by
  by_cases h : x = k
  · subst h; simp [dictGet, dictSet]
  · simp [dictGet, dictSet, h, Ne.symm h]
| p :: ps, k, v, x => by
  by_cases hpk : p.1 = k
  · by_cases hxk : x = k
    · subst hxk; simp [dictSet, hpk, dictGet]
    · simp [dictSet, hpk, dictGet, hxk, Ne.symm hxk]
  · by_cases hxk : x = k
    · subst hxk
      simp [dictSet, hpk, dictGet, dictGet_dictSet ps x v x]
    · simp [dictSet, hpk, dictGet, hxk, dictGet_dictSet ps k v x]

theorem find?_append_of_none {α : Type} (p : α → Bool) :
    ∀ (l1 l2 : List α), (∀ a ∈ l1, p a = false) →
      (l1 ++ l2).find? p = l2.find? p
| [], l2, _ => rfl
| a :: l1, l2, h => by
  have ha := h a (List.mem_cons_self a l1)
  simp only [List.cons_append, List.find?, ha]
  exact find?_append_of_none p l1 l2 (fun b hb => h b (List.mem_cons_of_mem a hb))

theorem filter_always_true {α : Type} : ∀ (l : List α), l.filter (fun _ => true) = l
| [] => rfl
| a :: l => by simp [List.filter, filter_always_true l]

theorem find?_cons_true {α : Type} (p : α → Bool) (a : α) (l : List α) (h : p a = true) :
    (a :: l).find? p = some a := by
  simp [List.find?_cons, h]

theorem get_zone_id_error_class (ps : ProviderState) (domain : String) (e : PyExc)
    (h : get_zone_id ps domain = .error e) : e = .cloudFlareError := by
  unfold get_zone_id at h
  split at h
  · injection h with h2
    exact h2.symm
  · split at h
    · exact Except.noConfusion h
    · injection h with h2
      exact h2.symm

theorem get_records_error_class (ps : ProviderState) (domain : String) (e : PyExc)
    (h : get_records ps domain = .error e) : e = .cloudFlareError := by
  unfold get_records at h
  split at h
  next e2 heq =>
    injection h with h2
    exact h2 ▸ get_zone_id_error_class ps domain e2 heq
  next =>
    split at h
    · injection h with h2
      exact h2.symm
    · exact Except.noConfusion h

theorem get_record_id_error_class (ps : ProviderState) (domain : String)
    (record_type : RecordType) (e : PyExc)
    (h : get_record_id ps domain record_type = .error e) : e = .cloudFlareError := by
  unfold get_record_id at h
  split at h
  next e2 heq =>
    injection h with h2
    exact h2 ▸ get_records_error_class ps domain e2 heq
  next =>
    split at h
    · exact Except.noConfusion h
    · injection h with h2
      exact h2.symm

theorem delete_missing_loop_all_ok (ps : ProviderState) (record_type : RecordType) :
    ∀ (domains : List String), (∀ d ∈ domains, delete_record ps d record_type = .ok ()) →
      delete_missing_loop ps record_type domains =
        .ok (domains.map (fun d => (d, record_type)))
| [], _ => rfl
| d :: ds, h => by
  have hd := h d (List.mem_cons_self d ds)
  have ih := delete_missing_loop_all_ok ps record_type ds
    (fun x hx => h x (List.mem_cons_of_mem d hx))
  simp [delete_missing_loop, hd, ih]

theorem get_ip_skips {pre : List ServiceOutcome}
    (h : ∀ o ∈ pre, o = .unreachable ∨ o = .errorStatus) :
    ∀ rest, get_ip (pre ++ rest) = get_ip rest := by
  induction pre with
  | nil => intro rest; rfl
  | cons o pre ih =>
    intro rest
    have ho := h o (List.mem_cons_self o pre)
    have hrest := ih (fun x hx => h x (List.mem_cons_of_mem o hx)) rest
    rcases ho with ho | ho <;> subst ho <;> simpa [get_ip] using hrest

theorem update_domains_go_fst (ps : ProviderState) (old_cache : IPCache)
    (current_ip : IPAddress) (proxied : Bool) :
    ∀ (ds : List String) (acc : Bool × IPCache),
      (CFUpdater.update_domains_go ps old_cache current_ip proxied ds acc).1 =
        (acc.1 && ds.all (fun d => (CFUpdater.update_one ps old_cache current_ip proxied d).isSome))
| [], acc => by simp [CFUpdater.update_domains_go]
| d :: ds, acc => by
  cases h : CFUpdater.update_one ps old_cache current_ip proxied d with
  | some zr =>
    simp [CFUpdater.update_domains_go, h,
      update_domains_go_fst ps old_cache current_ip proxied ds]
  | none =>
    simp [CFUpdater.update_domains_go, h,
      update_domains_go_fst ps old_cache current_ip proxied ds]

theorem update_domains_go_address (ps : ProviderState) (old_cache : IPCache)
    (current_ip : IPAddress) (proxied : Bool) :
    ∀ (ds : List String) (acc : Bool × IPCache),
      (CFUpdater.update_domains_go ps old_cache current_ip proxied ds acc).2.address =
        acc.2.address
| [], acc => rfl
| d :: ds, acc => by
  cases h : CFUpdater.update_one ps old_cache current_ip proxied d with
  | some zr =>
    simp [CFUpdater.update_domains_go, h,
      update_domains_go_address ps old_cache current_ip proxied ds]
  | none =>
    simp [CFUpdater.update_domains_go, h,
      update_domains_go_address ps old_cache current_ip proxied ds]

theorem update_domains_go_get (ps : ProviderState) (old_cache : IPCache)
    (current_ip : IPAddress) (proxied : Bool) :
    ∀ (ds : List String) (acc : Bool × IPCache) (x : String),
      dictGet (CFUpdater.update_domains_go ps old_cache current_ip proxied ds acc).2.updated_domains x =
        if ds.contains x && (CFUpdater.update_one ps old_cache current_ip proxied x).isSome
        then CFUpdater.update_one ps old_cache current_ip proxied x
        else dictGet acc.2.updated_domains x
| [], acc, x => by simp [CFUpdater.update_domains_go]
| d :: ds, acc, x => by
  have ih := update_domains_go_get ps old_cache current_ip proxied ds
  by_cases hxd : x = d
  · subst hxd
    cases h : CFUpdater.update_one ps old_cache current_ip proxied x with
    | some zr =>
      simp only [CFUpdater.update_domains_go, h]
      rw [ih]
      by_cases hmem : ds.contains x
      · simp [hmem, h, dictGet_dictSet]
      · simp [hmem, h, dictGet_dictSet]
    | none =>
      simp only [CFUpdater.update_domains_go, h]
      rw [ih]
      by_cases hmem : ds.contains x
      · simp [hmem, h]
      · simp [hmem, h]
  · cases h : CFUpdater.update_one ps old_cache current_ip proxied d with
    | some zr =>
      simp only [CFUpdater.update_domains_go, h]
      rw [ih]
      by_cases hmem : ds.contains x
      · simp [hmem, hxd, dictGet_dictSet]
      · simp [hmem, hxd, dictGet_dictSet]
    | none =>
      simp only [CFUpdater.update_domains_go, h]
      rw [ih]
      by_cases hmem : ds.contains x
      · simp [hmem, hxd]
      · simp [hmem, hxd]

/-! ### Claim theorems -/

/-- Claim C10: for every zone list held by the provider client, get_zone_id
returns the id of the first zone whose name is a plain string suffix of the
queried domain (no dot-boundary check), and it fails exactly when no zone
name is a suffix of the domain. -/
theorem c10_zone_suffix_matching (ps : ProviderState) (zs : List (String × String))
    (domain : String) (hz : ps.zones = some zs) :
    (get_zone_id ps domain = .error .cloudFlareError ↔
      ∀ p ∈ zs, str_endswith domain p.1 = false)
    ∧ (∀ pre z post, zs = pre ++ z :: post →
        (∀ p ∈ pre, str_endswith domain p.1 = false) →
        str_endswith domain z.1 = true →
        get_zone_id ps domain = .ok z.2) := by
  cases hf : zs.find? (fun z => str_endswith domain z.1) with
  | none =>
    have hval : get_zone_id ps domain = .error .cloudFlareError := by
      simp [get_zone_id, hz, hf]
    constructor
    · constructor
      · intro _ p hp
        simpa using List.find?_eq_none.mp hf p hp
      · intro _
        exact hval
    · intro pre z post hsplit hpre hz1
      exfalso
      subst hsplit
      rw [find?_append_of_none _ pre (z :: post) hpre] at hf
      rw [find?_cons_true _ z post hz1] at hf
      cases hf
  | some z0 =>
    have hval : get_zone_id ps domain = .ok z0.2 := by
      simp [get_zone_id, hz, hf]
    have hmem := List.mem_of_find?_eq_some hf
    have hsat := List.find?_some hf
    constructor
    · constructor
      · intro habs
        rw [hval] at habs
        cases habs
      · intro hall
        have h2 := hall z0 hmem
        rw [h2] at hsat
        cases hsat
    · intro pre z post hsplit hpre hz1
      subst hsplit
      rw [find?_append_of_none _ pre (z :: post) hpre] at hf
      rw [find?_cons_true _ z post hz1] at hf
      cases hf
      exact hval

/-- Witness for C10 at a concrete input: the zone example.com is a plain
string suffix of notexample.com, so the lookup resolves to it despite the
missing dot boundary. -/
theorem c10_zone_suffix_matching_witness :
    str_endswith "notexample.com" "example.com" = true ∧
    get_zone_id psRecordsFail "notexample.com" = .ok "Z1" := by
  constructor
  · decide
  · exact (c10_zone_suffix_matching psRecordsFail [("example.com", "Z1")]
      "notexample.com" rfl).2 [] ("example.com", "Z1") [] rfl (by simp) (by decide)

/-- Claim C1 counterexample: with force = true, a requested domain that the
old cache lists with a matching proxied flag is removed by updater.py
_get_domains — the full requested set is not returned. -/
theorem c1_counterexample :
    CFUpdater.get_domains ["a.com"] true false (.v4 1) cacheA = [] ∧
    ([] : List String) ≠ ["a.com"] := by
  exact ⟨by decide, by decide⟩

/-- Claim C1 amended: with force = true, cli.py get_domains returns the full
requested list unconditionally (and records the current address), while
updater.py _get_domains skips only the address comparison and still filters
against the old cache, so it returns the full list only when the old cache
lists none of the requested domains — in particular for the empty old cache
that the force path of the cache loader produces. -/
theorem c1_amended :
    (∀ (domains : List String) (current_ip : IPAddress) (ip_cache : IPCache) (proxied : Bool),
      Cli.get_domains domains true current_ip ip_cache proxied =
        (domains, { ip_cache with address := some current_ip }))
    ∧ (∀ (domains : List String) (proxied : Bool) (current_ip : IPAddress) (old_cache : IPCache),
        old_cache.updated_domains = [] →
        CFUpdater.get_domains domains true proxied current_ip old_cache = domains) := by
  constructor
  · intro domains current_ip ip_cache proxied
    rfl
  · intro domains proxied current_ip old_cache h
    simp [CFUpdater.get_domains, missing_domains, h, filter_always_true]

/-- Witness for C1 amended at concrete inputs. -/
theorem c1_amended_witness :
    Cli.get_domains ["a.com"] true (.v4 1) cacheA false = (["a.com"], cacheA)
    ∧ CFUpdater.get_domains ["a.com"] true false (.v4 1) IPCache.empty = ["a.com"] := by
  constructor
  · have h := c1_amended.1 ["a.com"] (.v4 1) cacheA false
    simpa [cacheA] using h
  · exact c1_amended.2 ["a.com"] false (.v4 1) IPCache.empty rfl

/-- Claim C5 counterexample: a first service answering with an address of
the wrong family makes get_ipv4 fail outright without trying the next
service, and a first service with an unparseable body raises a ValueError
that escapes the probe — in both runs the second service would have
delivered a valid IPv4 address. -/
theorem c5_counterexample :
    get_ipv4 [.body (some (.v6 5)), .body (some (.v4 7))] = .error .ipServiceError
    ∧ get_ipv4 [.body none, .body (some (.v4 7))] = .error .valueError
    ∧ (Except.error PyExc.ipServiceError : Except PyExc IPAddress) ≠ .ok (.v4 7)
    ∧ (Except.error PyExc.valueError : Except PyExc IPAddress) ≠ .ok (.v4 7) := by
  exact ⟨rfl, rfl, by simp, by simp⟩

/-- Claim C5 amended: only unreachable services and error statuses are
skipped, and exhausting the list raises IPServiceError; the first body that
parses is returned with no family check, after which get_ipv4 maps a
wrong-family address to a hard IPServiceError for the whole probe; a body
that does not parse raises ValueError (the handler catches only
AddressValueError), aborting the probe. -/
theorem c5_amended (pre rest : List ServiceOutcome) (ip : IPAddress) (n : Nat)
    (hskip : ∀ o ∈ pre, o = .unreachable ∨ o = .errorStatus) :
    get_ip pre = .error .ipServiceError
    ∧ get_ip (pre ++ .body (some ip) :: rest) = .ok ip
    ∧ get_ip (pre ++ .body none :: rest) = .error .valueError
    ∧ get_ipv4 (pre ++ .body (some (.v6 n)) :: rest) = .error .ipServiceError := by
  refine ⟨?_, ?_, ?_, ?_⟩
  · have h := get_ip_skips hskip []
    simpa [get_ip] using h
  · rw [get_ip_skips hskip]
    rfl
  · rw [get_ip_skips hskip]
    rfl
  · unfold get_ipv4
    rw [get_ip_skips hskip]
    rfl

/-- Witness for C5 amended at concrete inputs. -/
theorem c5_amended_witness :
    get_ip [ServiceOutcome.unreachable] = .error .ipServiceError
    ∧ get_ip [ServiceOutcome.unreachable, .body (some (.v4 7))] = .ok (.v4 7) := by
  have h := c5_amended [.unreachable] [] (.v4 7) 0
    (by intro o ho; rw [List.mem_singleton] at ho; subst ho; exact Or.inl rfl)
  exact ⟨h.1, h.2.1⟩

/-- Helper: partial-failure isolation of updater.py _update_domains within a
pass started on an empty new cache — the new cache ends with an entry for
exactly the stale domains whose reconciliation succeeded, the pass code is 0
exactly when every stale domain succeeded, and the only other code is 2. -/
theorem updater_isolation (ps : ProviderState) (domains : List String)
    (force proxied : Bool) (current_ip : IPAddress) (old_cache : IPCache) :
    (∀ d, (dictGet (CFUpdater.handle_update_after_probe ps domains force proxied current_ip
            old_cache IPCache.empty).2.updated_domains d).isSome = true ↔
          (d ∈ CFUpdater.get_domains domains force proxied current_ip old_cache ∧
            (CFUpdater.update_one ps old_cache current_ip proxied d).isSome = true))
    ∧ ((CFUpdater.handle_update_after_probe ps domains force proxied current_ip
          old_cache IPCache.empty).1 = 0 ↔
        ∀ d ∈ CFUpdater.get_domains domains force proxied current_ip old_cache,
          (CFUpdater.update_one ps old_cache current_ip proxied d).isSome = true)
    ∧ ((CFUpdater.handle_update_after_probe ps domains force proxied current_ip
          old_cache IPCache.empty).1 = 0 ∨
       (CFUpdater.handle_update_after_probe ps domains force proxied current_ip
          old_cache IPCache.empty).1 = 2) := by
  set new1 : IPCache := (if some current_ip ≠ old_cache.address then
      { IPCache.empty with address := some current_ip } else IPCache.empty) with hnew1
  set stale : List String :=
    CFUpdater.get_domains domains force proxied current_ip old_cache with hstale
  have hnew1u : new1.updated_domains = [] := by
    rw [hnew1]
    split <;> rfl
  have hmain : CFUpdater.handle_update_after_probe ps domains force proxied current_ip
      old_cache IPCache.empty =
      if stale = [] then (0, new1)
      else ((if (CFUpdater.update_domains ps stale current_ip old_cache new1 proxied).1
              then 0 else 2),
            (CFUpdater.update_domains ps stale current_ip old_cache new1 proxied).2) := rfl
  have hud : CFUpdater.update_domains ps stale current_ip old_cache new1 proxied =
      CFUpdater.update_domains_go ps old_cache current_ip proxied stale (true, new1) := rfl
  by_cases hs : stale = []
  · rw [hmain, if_pos hs]
    refine ⟨?_, ?_, ?_⟩
    · intro d
      simp [hnew1u, hs, dictGet]
    · simp [hs]
    · simp
  · rw [hmain, if_neg hs]
    have hfst2 : (CFUpdater.update_domains_go ps old_cache current_ip proxied stale
        (true, new1)).1 = stale.all
          (fun d => (CFUpdater.update_one ps old_cache current_ip proxied d).isSome) := by
      simpa using update_domains_go_fst ps old_cache current_ip proxied stale (true, new1)
    have hget := update_domains_go_get ps old_cache current_ip proxied stale (true, new1)
    refine ⟨?_, ?_, ?_⟩
    · intro d
      rw [hud, hget d]
      by_cases hc : (stale.contains d &&
          (CFUpdater.update_one ps old_cache current_ip proxied d).isSome) = true
      · rw [if_pos hc]
        obtain ⟨hc1, hc2⟩ : stale.contains d = true ∧
            (CFUpdater.update_one ps old_cache current_ip proxied d).isSome = true := by
          simpa using hc
        constructor
        · intro _
          exact ⟨by simpa using hc1, hc2⟩
        · intro _
          exact hc2
      · rw [if_neg hc]
        rw [hnew1u]
        simp only [dictGet, Option.isSome_none, Bool.false_eq_true, false_iff]
        intro hand
        exact hc (by simp [hand.1, hand.2])
    · rw [hud, hfst2]
      by_cases hall : stale.all
          (fun d => (CFUpdater.update_one ps old_cache current_ip proxied d).isSome) = true
      · rw [hall]
        simp only [if_true, true_iff]
        intro d hd
        exact List.all_eq_true.mp hall d hd
      · rw [Bool.not_eq_true] at hall
        rw [hall]
        simp only [Bool.false_eq_true, if_false]
        constructor
        · intro h0
          exact absurd h0 (by decide)
        · intro hforall
          exact absurd (List.all_eq_true.mpr (fun d hd => hforall d hd))
            (by rw [hall]; decide)
    · rw [hud]
      by_cases hb : (CFUpdater.update_domains_go ps old_cache current_ip proxied stale
          (true, new1)).1 = true
      · left
        rw [hb]
        rfl
      · right
        rw [Bool.not_eq_true] at hb
        rw [hb]
        rfl

/-- Claim C6 counterexample: in cli.py update_domains (the old-style driver
the claim also cites), the provider failing only for b.com is NOT isolated
at the per-domain boundary: the create failure for b.com raises
CloudFlareError past the stale except clause, the loop aborts before
c.com is ever processed, and the cache ends with an entry for a.com only —
even though c.com's reconciliation would have succeeded (as the updater
engine shows on the same inputs).  handle_update maps the escaped error to
code 2 with c.com missing from the cache. -/
theorem c6_counterexample :
    Cli.update_domains psFailsOnB ["a.com", "b.com", "c.com"] ⟨some (.v4 1), []⟩
        (.v4 1) false =
      .error (.cloudFlareError, ⟨some (.v4 1), [("a.com", ⟨"za", "rNew", false⟩)]⟩)
    ∧ Cli.handle_update psFailsOnB (.ok (.v4 1)) false .A ["a.com", "b.com", "c.com"]
        false ⟨some (.v4 1), []⟩ false false =
      .ok (2, ⟨some (.v4 1), [("a.com", ⟨"za", "rNew", false⟩)]⟩)
    ∧ CFUpdater.update_one psFailsOnB ⟨some (.v4 1), []⟩ (.v4 1) false "c.com" =
        some ⟨"zc", "rNew", false⟩
    ∧ dictGet [("a.com", ⟨"za", "rNew", false⟩)] "c.com" = none := by
  refine ⟨by decide, by decide, by decide, by decide⟩

/-- Claim C6 amended: in updater.py _update_domains, per-domain failures are
caught and processing continues through the whole list — starting from an
empty new cache, the new cache holds an entry for exactly the stale domains
whose reconciliation succeeded, and the pass code is 0 exactly when all
succeeded (2 otherwise).  In cli.py update_domains only zone-lookup failures
are isolated (success is cleared and the loop continues); a failing
create/update write raises CloudFlareError past the stale except clauses
naming the old SDK's CloudFlareAPIError, aborting the loop at that domain
so that later domains are never processed. -/
theorem c6_amended (ps : ProviderState) (domains : List String)
    (force proxied : Bool) (current_ip : IPAddress) (old_cache : IPCache) :
    (∀ d, (dictGet (CFUpdater.handle_update_after_probe ps domains force proxied current_ip
            old_cache IPCache.empty).2.updated_domains d).isSome = true ↔
          (d ∈ CFUpdater.get_domains domains force proxied current_ip old_cache ∧
            (CFUpdater.update_one ps old_cache current_ip proxied d).isSome = true))
    ∧ ((CFUpdater.handle_update_after_probe ps domains force proxied current_ip
          old_cache IPCache.empty).1 = 0 ↔
        ∀ d ∈ CFUpdater.get_domains domains force proxied current_ip old_cache,
          (CFUpdater.update_one ps old_cache current_ip proxied d).isSome = true)
    ∧ ((CFUpdater.handle_update_after_probe ps domains force proxied current_ip
          old_cache IPCache.empty).1 = 0 ∨
       (CFUpdater.handle_update_after_probe ps domains force proxied current_ip
          old_cache IPCache.empty).1 = 2)
    ∧ (∀ (acc : Bool × IPCache) (d : String) (e2 : PyExc),
        dictGet acc.2.updated_domains d = none → get_zone_id ps d = .error e2 →
        Cli.update_step ps current_ip proxied acc d = .ok (false, acc.2))
    ∧ (∀ (acc : Bool × IPCache) (d : String) (rest : List String) (ec : PyExc × IPCache),
        Cli.update_step ps current_ip proxied acc d = .error ec →
        Cli.update_domains_go ps current_ip proxied (d :: rest) acc = .error ec) := by
  have h := updater_isolation ps domains force proxied current_ip old_cache
  refine ⟨h.1, h.2.1, h.2.2, ?_, ?_⟩
  · intro acc d e2 hnone hz
    simp only [Cli.update_step]
    rw [hnone, hz]
  · intro acc d rest ec hstep
    simp [Cli.update_domains_go, hstep]

/-- Witness for C6 amended: the updater engine records c.com despite the
b.com failure (no abort), while in cli.py the very step failure that the
counterexample exhibits for b.com aborts the remaining loop. -/
theorem c6_amended_witness :
    (dictGet (CFUpdater.handle_update_after_probe psFailsOnB ["a.com", "b.com", "c.com"]
        false false (.v4 1) IPCache.empty IPCache.empty).2.updated_domains "c.com").isSome = true
    ∧ (CFUpdater.handle_update_after_probe psFailsOnB ["a.com", "b.com", "c.com"]
        false false (.v4 1) IPCache.empty IPCache.empty).1 = 2
    ∧ Cli.update_domains_go psFailsOnB (.v4 1) false ["b.com", "c.com"]
        (true, ⟨some (.v4 1), [("a.com", ⟨"za", "rNew", false⟩)]⟩) =
      .error (.cloudFlareError, ⟨some (.v4 1), [("a.com", ⟨"za", "rNew", false⟩)]⟩) := by
  have h := c6_amended psFailsOnB ["a.com", "b.com", "c.com"] false false (.v4 1)
    IPCache.empty
  refine ⟨(h.1 "c.com").mpr (by decide), by decide, ?_⟩
  exact h.2.2.2.2 (true, ⟨some (.v4 1), [("a.com", ⟨"za", "rNew", false⟩)]⟩) "b.com"
    ["c.com"] (.cloudFlareError, ⟨some (.v4 1), [("a.com", ⟨"za", "rNew", false⟩)]⟩)
    (by decide)

/-- Claim C7 counterexample: a pass whose address is unchanged but which
updates a previously uncached domain persists a new IPCache with a non-empty
updated_domains and address = none, so no domain entry can point at "the
address currently stored in the address field". -/
theorem c7_counterexample :
    CFUpdater.handle_update_after_probe psCreates ["a.com"] false false (.v4 1)
        cacheAddrOnly IPCache.empty = (0, ⟨none, [("a.com", ⟨"z1", "r1", false⟩)]⟩)
    ∧ ¬ spec_updated_domains_invariant psCreates cacheAddrOnly false
        (CFUpdater.handle_update_after_probe psCreates ["a.com"] false false (.v4 1)
          cacheAddrOnly IPCache.empty).2 := by
  have heval : CFUpdater.handle_update_after_probe psCreates ["a.com"] false false (.v4 1)
      cacheAddrOnly IPCache.empty = (0, ⟨none, [("a.com", ⟨"z1", "r1", false⟩)]⟩) := by decide
  refine ⟨heval, ?_⟩
  intro hinv
  have h := hinv "a.com" ⟨"z1", "r1", false⟩ (by rw [heval]; decide)
  obtain ⟨a, ha, _⟩ := h
  rw [heval] at ha
  exact Option.noConfusion ha

/-- Claim C7 amended: every entry the pass leaves in the new cache is the
result of a successful reconciliation of that domain at the address probed
in this pass, and the new cache records that address only when it differs
from the old cache (it stays none when the address is unchanged, even if
entries were added). -/
theorem c7_amended (ps : ProviderState) (domains : List String) (force proxied : Bool)
    (current_ip : IPAddress) (old_cache : IPCache) :
    (∀ d zr, dictGet (CFUpdater.handle_update_after_probe ps domains force proxied current_ip
          old_cache IPCache.empty).2.updated_domains d = some zr →
        CFUpdater.update_one ps old_cache current_ip proxied d = some zr)
    ∧ (CFUpdater.handle_update_after_probe ps domains force proxied current_ip
          old_cache IPCache.empty).2.address =
        (if some current_ip ≠ old_cache.address then some current_ip else none) := by
  set new1 : IPCache := (if some current_ip ≠ old_cache.address then
      { IPCache.empty with address := some current_ip } else IPCache.empty) with hnew1
  set stale : List String :=
    CFUpdater.get_domains domains force proxied current_ip old_cache with hstale
  have hnew1u : new1.updated_domains = [] := by
    rw [hnew1]
    split <;> rfl
  have hnew1a : new1.address = (if some current_ip ≠ old_cache.address then
      some current_ip else none) := by
    rw [hnew1]
    split <;> rfl
  have hmain : CFUpdater.handle_update_after_probe ps domains force proxied current_ip
      old_cache IPCache.empty =
      if stale = [] then (0, new1)
      else ((if (CFUpdater.update_domains ps stale current_ip old_cache new1 proxied).1
              then 0 else 2),
            (CFUpdater.update_domains ps stale current_ip old_cache new1 proxied).2) := rfl
  by_cases hs : stale = []
  · rw [hmain, if_pos hs]
    refine ⟨?_, hnew1a⟩
    intro d zr hd
    rw [hnew1u] at hd
    exact Option.noConfusion hd
  · rw [hmain, if_neg hs]
    constructor
    · intro d zr hd
      have hget := update_domains_go_get ps old_cache current_ip proxied stale (true, new1) d
      rw [show (CFUpdater.update_domains ps stale current_ip old_cache new1 proxied) =
          CFUpdater.update_domains_go ps old_cache current_ip proxied stale (true, new1)
          from rfl] at hd
      rw [hget] at hd
      by_cases hc : (stale.contains d &&
          (CFUpdater.update_one ps old_cache current_ip proxied d).isSome) = true
      · rw [if_pos hc] at hd
        exact hd
      · rw [if_neg hc, hnew1u] at hd
        exact Option.noConfusion hd
    · have haddr := update_domains_go_address ps old_cache current_ip proxied stale (true, new1)
      show (CFUpdater.update_domains_go ps old_cache current_ip proxied stale
          (true, new1)).2.address = _
      rw [haddr]
      exact hnew1a

/-- Witness for C7 amended at a concrete input: the entry stored for a.com
is exactly the reconciliation result at the probed address. -/
theorem c7_amended_witness :
    CFUpdater.update_one psCreates cacheAddrOnly (.v4 1) false "a.com" =
      some ⟨"z1", "r1", false⟩ :=
  (c7_amended psCreates ["a.com"] false false (.v4 1) cacheAddrOnly).1
    "a.com" ⟨"z1", "r1", false⟩ (by decide)

/-- Helper: in updater.py, when the old cache holds a (zone_id, record_id)
pair for a domain and the provider rejects the fast-path update with those
ids, reconciliation falls through to exactly the lookup path it would take
with no cache entry, and a successful fallback carries freshly resolved
ids (zone id from get_zone_id; record id from get_record_id followed by
update_record, or from create_record when the record lookup failed). -/
theorem updater_self_heal (ps : ProviderState) (old_cache : IPCache)
    (current_ip : IPAddress) (proxied : Bool) (domain : String) (cache_record : ZoneRecord)
    (hc : dictGet old_cache.updated_domains domain = some cache_record)
    (hrej : update_record ps domain current_ip cache_record.zone_id cache_record.record_id =
      .error .cloudFlareError) :
    CFUpdater.update_one ps old_cache current_ip proxied domain =
      CFUpdater.update_one_uncached ps current_ip proxied domain
    ∧ (∀ other : IPCache, dictGet other.updated_domains domain = none →
        CFUpdater.update_one ps old_cache current_ip proxied domain =
          CFUpdater.update_one ps other current_ip proxied domain)
    ∧ (∀ zr, CFUpdater.update_one_uncached ps current_ip proxied domain = some zr →
        get_zone_id ps domain = .ok zr.zone_id
        ∧ (get_record_id ps domain (get_record_type current_ip) = .ok zr.record_id
            ∨ (get_record_id ps domain (get_record_type current_ip) = .error .cloudFlareError
               ∧ create_record ps domain current_ip = .ok zr.record_id))) := by
  have h1 : CFUpdater.update_one ps old_cache current_ip proxied domain =
      CFUpdater.update_one_uncached ps current_ip proxied domain := by
    unfold CFUpdater.update_one
    rw [hc]
    show (match update_record ps domain current_ip cache_record.zone_id cache_record.record_id with
          | .ok _ => some ⟨cache_record.zone_id, cache_record.record_id, proxied⟩
          | .error _ => CFUpdater.update_one_uncached ps current_ip proxied domain) =
        CFUpdater.update_one_uncached ps current_ip proxied domain
    rw [hrej]
  refine ⟨h1, ?_, ?_⟩
  · intro other hother
    rw [h1]
    unfold CFUpdater.update_one
    rw [hother]
  · intro zr hzr
    unfold CFUpdater.update_one_uncached at hzr
    split at hzr
    next heqz =>
      exact Option.noConfusion hzr
    next zone_id heqz =>
      split at hzr
      next heqr =>
        split at hzr
        next heqc =>
          exact Option.noConfusion hzr
        next record_id heqc =>
          injection hzr with hzr2
          subst hzr2
          obtain ⟨e2, heqr2⟩ : ∃ e2, get_record_id ps domain (get_record_type current_ip) =
              .error e2 := by
            revert heqr
            cases get_record_id ps domain (get_record_type current_ip) with
            | error e => intro _; exact ⟨e, rfl⟩
            | ok r => intro hh; exact absurd hh (by simp)
          have he2 := get_record_id_error_class ps domain (get_record_type current_ip) e2 heqr2
          subst he2
          exact ⟨heqz, Or.inr ⟨heqr2, heqc⟩⟩
      next record_id heqr =>
        split at hzr
        next hequ =>
          exact Option.noConfusion hzr
        next u hequ =>
          injection hzr with hzr2
          subst hzr2
          exact ⟨heqz, Or.inl heqr⟩

/-- Claim C9 counterexample: in cli.py update_domains (the old-style driver
the claim also cites), a cached (zOld, rOld) pair that the provider rejects
on the fast-path update does NOT fall through to the lookup path: the
CloudFlareError raised by update_record escapes the stale except clause
naming the old SDK's CloudFlareAPIError, the step and then the whole loop
abort, and handle_update reports code 2 with the stale entry kept — even
though the provider holds a valid record that the fallback would have
resolved to (z1, r1), as the updater engine shows on the same inputs. -/
theorem c9_counterexample :
    Cli.update_step psSelfHeal (.v4 3) false (true, cacheStale) "a.com" =
      .error (.cloudFlareError, cacheStale)
    ∧ Cli.update_domains psSelfHeal ["a.com"] cacheStale (.v4 3) false =
        .error (.cloudFlareError, cacheStale)
    ∧ Cli.handle_update psSelfHeal (.ok (.v4 3)) false .A ["a.com"] false cacheStale
        false false =
      .ok (2, ⟨some (.v4 3), [("a.com", ⟨"zOld", "rOld", false⟩)]⟩)
    ∧ CFUpdater.update_one psSelfHeal cacheStale (.v4 3) false "a.com" =
        some ⟨"z1", "r1", false⟩ := by
  refine ⟨by decide, by decide, by decide, by decide⟩

/-- Claim C9 amended: in updater.py, a cached id pair rejected on the
fast-path update makes reconciliation fall through to exactly the no-cache
lookup path, and a successful fallback stores freshly resolved ids (zone id
from get_zone_id; record id from get_record_id plus update_record, or from
create_record when the record lookup failed).  In cli.py, the same rejection
raises CloudFlareError out of update_step — past the stale except clause —
so no fallback lookup runs for that pass. -/
theorem c9_amended (ps : ProviderState) (old_cache : IPCache)
    (current_ip : IPAddress) (proxied : Bool) (domain : String) (cache_record : ZoneRecord)
    (hc : dictGet old_cache.updated_domains domain = some cache_record)
    (hrej : update_record ps domain current_ip cache_record.zone_id cache_record.record_id =
      .error .cloudFlareError) :
    CFUpdater.update_one ps old_cache current_ip proxied domain =
      CFUpdater.update_one_uncached ps current_ip proxied domain
    ∧ (∀ other : IPCache, dictGet other.updated_domains domain = none →
        CFUpdater.update_one ps old_cache current_ip proxied domain =
          CFUpdater.update_one ps other current_ip proxied domain)
    ∧ (∀ zr, CFUpdater.update_one_uncached ps current_ip proxied domain = some zr →
        get_zone_id ps domain = .ok zr.zone_id
        ∧ (get_record_id ps domain (get_record_type current_ip) = .ok zr.record_id
            ∨ (get_record_id ps domain (get_record_type current_ip) = .error .cloudFlareError
               ∧ create_record ps domain current_ip = .ok zr.record_id)))
    ∧ (∀ b : Bool, Cli.update_step ps current_ip proxied (b, old_cache) domain =
        .error (.cloudFlareError, old_cache)) := by
  have h := updater_self_heal ps old_cache current_ip proxied domain cache_record hc hrej
  refine ⟨h.1, h.2.1, h.2.2, ?_⟩
  intro b
  simp only [Cli.update_step]
  rw [hc]
  split
  next a heq =>
    injection heq with h3
    subst h3
    split
    next a2 heq2 =>
      rw [heq2] at hrej
      exact Except.noConfusion hrej
    next e heq2 =>
      rw [heq2] at hrej
      injection hrej with h2
      rw [h2]
  next heq =>
    exact Option.noConfusion heq

/-- Witness for C9 amended at a concrete input: the rejected cached ids
(zOld, rOld) make the updater fall back and resolve the fresh ids (z1, r1),
while the cli step aborts with the escaped CloudFlareError. -/
theorem c9_amended_witness :
    CFUpdater.update_one psSelfHeal cacheStale (.v4 2) false "a.com" =
      CFUpdater.update_one_uncached psSelfHeal (.v4 2) false "a.com"
    ∧ CFUpdater.update_one_uncached psSelfHeal (.v4 2) false "a.com" =
        some ⟨"z1", "r1", false⟩
    ∧ Cli.update_step psSelfHeal (.v4 2) false (true, cacheStale) "a.com" =
        .error (.cloudFlareError, cacheStale) := by
  have h := c9_amended psSelfHeal cacheStale (.v4 2) false "a.com"
    ⟨"zOld", "rOld", false⟩ (by decide) (by decide)
  exact ⟨h.1, by decide, h.2.2.2 true⟩

/-- Claim C8 counterexample: a communication failure of the record listing
and a genuinely absent record produce the same result value of
get_record_id (the same exception class, CloudFlareError), and the caller
update path behaves identically on the two provider states — the two
failure modes are not distinguishable. -/
theorem c8_counterexample :
    get_record_id psRecordsFail "x.example.com" .A = .error .cloudFlareError
    ∧ get_record_id psNoRecords "x.example.com" .A = .error .cloudFlareError
    ∧ get_record_id psRecordsFail "x.example.com" .A =
        get_record_id psNoRecords "x.example.com" .A
    ∧ CFUpdater.update_one_uncached psRecordsFail (.v4 1) false "x.example.com" =
        CFUpdater.update_one_uncached psNoRecords (.v4 1) false "x.example.com" := by
  refine ⟨by decide, by decide, by decide, by decide⟩

/-- Claim C8 amended: every failure of get_record_id — zone lookup failure,
record-listing communication failure, or no matching record — raises the
same exception class CloudFlareError, and after any such failure the
reconciliation of updater.py proceeds to create_record, so a caller cannot
branch differently on not-found versus communication failure. -/
theorem c8_amended (ps : ProviderState) (domain : String) (current_ip : IPAddress)
    (proxied : Bool) :
    (∀ record_type e, get_record_id ps domain record_type = .error e →
      e = .cloudFlareError)
    ∧ (∀ zone_id, get_zone_id ps domain = .ok zone_id →
        get_record_id ps domain (get_record_type current_ip) = .error .cloudFlareError →
        CFUpdater.update_one_uncached ps current_ip proxied domain =
          (match create_record ps domain current_ip with
           | .error _ => none
           | .ok record_id => some ⟨zone_id, record_id, proxied⟩)) := by
  constructor
  · intro record_type e h
    exact get_record_id_error_class ps domain record_type e h
  · intro zone_id hz hr
    unfold CFUpdater.update_one_uncached
    rw [hz]
    show (match get_record_id ps domain (get_record_type current_ip) with
          | .error _ =>
            (match create_record ps domain current_ip with
             | .error _ => (none : Option ZoneRecord)
             | .ok record_id => some (⟨zone_id, record_id, proxied⟩ : ZoneRecord))
          | .ok record_id =>
            (match update_record ps domain current_ip zone_id record_id with
             | .error _ => (none : Option ZoneRecord)
             | .ok _ => some (⟨zone_id, record_id, proxied⟩ : ZoneRecord))) = _
    rw [hr]

/-- Witness for C8 amended at a concrete input: with the record listing
failing on communication, the caller goes on to record creation. -/
theorem c8_amended_witness :
    CFUpdater.update_one_uncached psRecordsFail (.v4 1) false "x.example.com" =
      (match create_record psRecordsFail "x.example.com" (.v4 1) with
       | .error _ => none
       | .ok record_id => some ⟨"Z1", record_id, false⟩) :=
  (c8_amended psRecordsFail "x.example.com" (.v4 1) false).2 "Z1" (by decide) (by decide)

/-- Claim C2 counterexample: with delete_missing = true and a failed address
probe, a CloudFlareError raised by delete_record (here: the zone list holds
no matching zone) escapes the whole pass instead of the pass returning OK
with a cleared cache. -/
theorem c2_counterexample :
    CFUpdater.handle_update psNoZones (.error ()) true .AAAA ["x.example.com"] false false
        cacheX IPCache.empty false = .error .cloudFlareError
    ∧ (Except.error PyExc.cloudFlareError : Except PyExc (Nat × IPCache)) ≠
        .ok (0, IPCache.empty) := by
  exact ⟨by decide, by simp⟩

/-- Claim C2 amended: when the probe fails and delete_missing is true, the
pass issues one delete_record call per requested domain in order, and — when
every delete_record call returns (record-not-found inside delete_record is
swallowed as success) — returns 0 with the new cache untouched (cli.py
additionally clears the single shared cache); a CloudFlareError raised by a
delete_record call escapes the pass.  When delete_missing is false the pass
returns 3 immediately with no cache mutation. -/
theorem c2_amended (ps : ProviderState) (record_type : RecordType) (domains : List String)
    (old_cache new_cache ip_cache : IPCache) (force proxied dbg : Bool)
    (h : ∀ d ∈ domains, delete_record ps d record_type = .ok ()) :
    CFUpdater.handle_update ps (.error ()) true record_type domains force proxied
        old_cache new_cache dbg = .ok (0, new_cache)
    ∧ delete_missing_loop ps record_type domains =
        .ok (domains.map (fun d => (d, record_type)))
    ∧ CFUpdater.handle_update ps (.error ()) false record_type domains force proxied
        old_cache new_cache dbg = .ok (3, new_cache)
    ∧ Cli.handle_update ps (.error ()) true record_type domains force ip_cache dbg proxied =
        .ok (0, IPCache.empty) := by
  have hloop := delete_missing_loop_all_ok ps record_type domains h
  refine ⟨?_, hloop, ?_, ?_⟩
  · simp [CFUpdater.handle_update, hloop]
  · simp [CFUpdater.handle_update]
  · simp [Cli.handle_update, hloop, IPCache.clear]

/-- Witness for C2 amended at the spec delete-missing scenario: one AAAA
delete call for x.example.com, result OK, final per-family cache with no
address and no updated domains. -/
theorem c2_amended_witness :
    CFUpdater.handle_update psNoRecords (.error ()) true .AAAA ["x.example.com"] false false
        cacheX IPCache.empty false = .ok (0, IPCache.empty)
    ∧ delete_missing_loop psNoRecords .AAAA ["x.example.com"] =
        .ok [("x.example.com", .AAAA)] := by
  have h := c2_amended psNoRecords .AAAA ["x.example.com"] cacheX IPCache.empty cacheX
    false false false (by intro d hd; rw [List.mem_singleton] at hd; subst hd; decide)
  exact ⟨h.1, h.2.1⟩

/-- Claim C3 counterexample: cli.py main saves the cache even when the new
cache equals the old one (nothing changed — the spec gate evaluates to
false), and even when the only pass hard-failed with code 3. -/
theorem c3_counterexample :
    Cli.main_run psNoZones (.ok (.v4 1)) (.error ()) true false false ["a.com"]
        false false false cacheMain = .ok ⟨true, cacheMain, 0⟩
    ∧ spec_save_gate cacheMain cacheMain = false
    ∧ Cli.main_run psNoZones (.error ()) (.error ()) true false false ["a.com"]
        false false false cacheMain = .ok ⟨true, cacheMain, 3⟩ := by
  refine ⟨by decide, by decide, by decide⟩

/-- Claim C3 amended: the driver persists the cache exactly when no
exception escaped the per-family passes — unconditionally on the value of
the cache, with no emptiness or difference gating. -/
theorem c3_amended (ps : ProviderState) (probe4 probe6 : Except Unit IPAddress)
    (ipv4 ipv6 delete_missing : Bool) (domains : List String) (force debug proxied : Bool)
    (cache : Cache) (r : Cli.MainResult)
    (h : Cli.main_run ps probe4 probe6 ipv4 ipv6 delete_missing domains force debug proxied
      cache = .ok r) :
    r.saved = true := by
  unfold Cli.main_run at h
  cases h4 : Cli.run_pass ps probe4 delete_missing .A domains force cache.ipv4 debug
      proxied ipv4 with
  | error e =>
    rw [h4] at h
    exact Except.noConfusion h
  | ok v =>
    obtain ⟨c4, ipc4⟩ := v
    rw [h4] at h
    cases h6 : Cli.run_pass ps probe6 delete_missing .AAAA domains force cache.ipv6 debug
        proxied ipv6 with
    | error e =>
      rw [h6] at h
      exact Except.noConfusion h
    | ok w =>
      obtain ⟨c6, ipc6⟩ := w
      rw [h6] at h
      injection h with h2
      subst h2
      rfl

/-- Witness for C3 amended at a concrete input. -/
theorem c3_amended_witness :
    Cli.main_run psNoZones (.ok (.v4 1)) (.error ()) true false false ["a.com"]
        false false false cacheMain = .ok ⟨true, cacheMain, 0⟩
    ∧ (⟨true, cacheMain, 0⟩ : Cli.MainResult).saved = true :=
  ⟨by decide, c3_amended psNoZones (.ok (.v4 1)) (.error ()) true false false ["a.com"]
      false false false cacheMain ⟨true, cacheMain, 0⟩ (by decide)⟩

/-- Claim C4: evaluation of cli.py handle_update at the two failure inputs:
a failed address probe with delete_missing = false returns 3 — which
types.py numbers as ExitCode.CLOUDFLARE_ERROR, not as
ExitCode.IP_SERVICE_ERROR = 2 as the claim states — and a pass whose only
domain failed at the provider (zone lookup failure, no exception escaping)
returns 2, not 3.  The ExitCode enumeration itself carries OK=0,
UNKNOWN_ERROR=1, IP_SERVICE_ERROR=2, CLOUDFLARE_ERROR=3. -/
theorem c4_exit_codes :
    Cli.handle_update psNoZones (.error ()) false .A ["a.com"] false IPCache.empty
        false false = .ok (3, IPCache.empty)
    ∧ Cli.handle_update psNoZones (.ok (.v4 1)) false .A ["a.com"] false IPCache.empty
        false false = .ok (2, ⟨some (.v4 1), []⟩)
    ∧ ExitCode.OK = 0 ∧ ExitCode.UNKNOWN_ERROR = 1
    ∧ ExitCode.IP_SERVICE_ERROR = 2 ∧ ExitCode.CLOUDFLARE_ERROR = 3
    ∧ (3 : Nat) ≠ ExitCode.IP_SERVICE_ERROR
    ∧ (2 : Nat) ≠ ExitCode.CLOUDFLARE_ERROR := by
  refine ⟨by decide, by decide, rfl, rfl, rfl, rfl, by decide, by decide⟩

end CFD
